import Mathlib

/-!
Verification development for the CoinFlipHelper repository
(`coinflip_helper.js`, two drafts of the same file).

The embedding models the helper bot's core state: the in-memory session
registry (`activeHelperGames`, a JS `Map` keyed by `session_id`), the durable
`coinflip_sessions` table, the set of pending `setTimeout` timers, and the
log of `answerCallbackQuery` replies and of committed terminal `UPDATE`s.

Conventions of the embedding:
* All identities are `String`s: the source always compares identities via
  `String(x) === String(y)`, and a JS `undefined` coerces to the string
  `"undefined"` (`jsStrOpt`).
* Presenter calls (`bot.sendMessage` / `bot.editMessageText` edits of the
  game message) carry no decision content and are modelled as no-ops on the
  state, except that the success of the initial `safeSendMessage` is an
  explicit boolean input (`ExtInput.sendOk`), because the source branches on it.
* External nondeterminism (`Math.random`, DB success/failure, message ids)
  is passed in through the `ExtInput` record.
* JS objects are mutated in place and shared by reference between the Map
  and local variables; the embedding threads the session value and writes
  it back to the registry at each mutation, which yields the same
  observable registry contents.
-/

/-- The `status` column of `coinflip_sessions`.  The source stores these as
strings; the closed set used by the helper is modelled as an inductive. -/
inductive Status where
  | pending_pickup
  | in_progress
  | completed_p1_win
  | completed_p2_win
  | completed_bot_win
  | completed_timeout
  | completed_cancelled
  | completed_error
  | completed_error_ui
deriving DecidableEq, Repr

/-- A status is terminal when it is neither `pending_pickup` nor `in_progress`. -/
def Status.isTerminal : Status → Bool
  | Status.pending_pickup => false
  | Status.in_progress => false
  | _ => true

/-- The `game_state_json` object attached to a session.  Fields the source
reads or writes; each is optional because JS objects start without them. -/
structure GameState where
  helperMessageId : Option Int := none
  initiatorName : Option String := none
  opponentName : Option String := none
  callerId : Option String := none
  callerName : Option String := none
  winner : Option String := none
  statusStr : Option String := none
  errorMsg : Option String := none
deriving DecidableEq, Repr

/-- An in-memory session object (a row of `coinflip_sessions` as returned by
`RETURNING *`, plus the `timeoutId` field the handlers attach to it). -/
structure Session where
  session_id : Int
  chat_id : Int := 0
  initiator_id : String
  opponent_id : Option String := none
  bet_amount_lamports : Int := 0
  status : Status := Status.in_progress
  game_state_json : GameState := {}
  timeoutId : Option Nat := none
deriving DecidableEq, Repr

/-- A durable row of the `coinflip_sessions` table. -/
structure Row where
  session_id : Int
  main_bot_game_id : Int
  chat_id : Int := 0
  initiator_id : String := ""
  opponent_id : Option String := none
  bet_amount_lamports : Int := 0
  status : Status
  game_state_json : GameState := {}
  helper_bot_id : Option String := none
deriving DecidableEq, Repr

/-- Which timeout handler a pending `setTimeout` will invoke, and with which
`context` argument (`handleGameTimeout(sessionId, context)` in the source). -/
inductive TimeoutCtx where
  | offer
  | player_turn
  | caller_turn
deriving DecidableEq, Repr

/-- A pending (armed, not yet fired, not yet cancelled) `setTimeout`. -/
structure Timer where
  handle : Nat
  sid : Int
  ctx : TimeoutCtx
deriving DecidableEq, Repr

/-- One `bot.answerCallbackQuery` reply.  `alert := true` models
`show_alert: true` (a user-visible alert). -/
structure Answer where
  text : Option String := none
  alert : Bool := false
deriving DecidableEq, Repr

/-- The "This game is no longer active." alert sent when the registry lookup
fails at handler entry. -/
def answerNoLongerActive : Answer :=
  { text := some "This game is no longer active.", alert := true }

/-- A user-visible denial: `answerCallbackQuery` with text and `show_alert: true`. -/
def answerAlert (t : String) : Answer := { text := some t, alert := true }

/-- An `answerCallbackQuery` with text but without `show_alert` (a toast). -/
def answerToast (t : String) : Answer := { text := some t }

/-- A bare `answerCallbackQuery(callbackQuery.id)` acknowledgement. -/
def answerPlain : Answer := {}

/-- The process-wide state the helper mutates: the `activeHelperGames`
registry, the durable table, the pending timers, the reply log, and the log
of successfully committed terminal-status `UPDATE`s (`persistLog` records
`(session_id, status, game_state_json)` for each commit). -/
structure World where
  registry : Int → Option Session
  store : List Row := []
  timers : List Timer := []
  answers : List Answer := []
  persistLog : List (Int × Status × GameState) := []
  nextTimerId : Nat := 0

/-- The empty `activeHelperGames` map. -/
def emptyRegistry : Int → Option Session := fun _ => none

/-- `Map.set` keyed by session id. -/
def mapSet (k : Int) (v : Session) (m : Int → Option Session) : Int → Option Session :=
  fun k' => if k' = k then some v else m k'

/-- `Map.delete` keyed by session id. -/
def mapDelete (k : Int) (m : Int → Option Session) : Int → Option Session :=
  fun k' => if k' = k then none else m k'

/-- JS string coercion of a possibly-`undefined` value:
`String(undefined) = "undefined"`. -/
def jsStrOpt : Option String → String
  | none => "undefined"
  | some s => s

/-- `Map.get` applied to the result of `parseInt`: a `NaN` key (modelled as
`none`) matches no stored session id. -/
def lookupNum (k : Option Int) (reg : Int → Option Session) : Option Session :=
  match k with
  | none => none
  | some i => reg i

/-- The digits at the front of a character list. -/
def leadingDigits (cs : List Char) : List Char := cs.takeWhile (fun c => c.isDigit)

/-- Decimal value of a nonempty digit list; `none` when there are no digits
(JS `parseInt` returns `NaN` in that case). -/
def digitCharsToNat (ds : List Char) : Option Nat :=
  if ds.isEmpty then none
  else some (ds.foldl (fun a c => a * 10 + (c.toNat - 48)) 0)

/-- `parseInt(s, 10)`: skip leading whitespace, optional sign, then the
leading run of decimal digits; `none` models `NaN`. -/
def parseIntJS (s : String) : Option Int :=
  match (s.toList.dropWhile (fun c => c.isWhitespace)) with
  | '-' :: rest => (digitCharsToNat (leadingDigits rest)).map (fun n => -(n : Int))
  | '+' :: rest => (digitCharsToNat (leadingDigits rest)).map (fun n => (n : Int))
  | cs => (digitCharsToNat (leadingDigits cs)).map (fun n => (n : Int))

/-- `String.prototype.split(':')` on the character list. -/
def splitColonList : List Char → List String
  | [] => [""]
  | c :: cs =>
    if c = ':' then "" :: splitColonList cs
    else
      match splitColonList cs with
      | [] => [String.mk [c]]
      | p :: ps => String.mk (c :: p.data) :: ps

/-- `data.split(':')`. -/
def splitColon (s : String) : List String := splitColonList s.data

/-- `clearTimeout(handle)` on the pending-timer set: removes the timer with
that handle if it is still pending; a `none`/already-fired handle is a no-op. -/
def removeTimer (h : Option Nat) (ts : List Timer) : List Timer :=
  match h with
  | none => ts
  | some hd => ts.filter (fun t => decide (t.handle ≠ hd))

/-- `if (session.timeoutId) clearTimeout(session.timeoutId)`. -/
def clearSessionTimeout (session : Session) (w : World) : World :=
  { w with timers := removeTimer session.timeoutId w.timers }

/-- `setTimeout(() => handler(sessionId, ctx), ms)`: arms a fresh timer and
returns its handle. -/
def armTimer (sid : Int) (ctx : TimeoutCtx) (w : World) : Nat × World :=
  (w.nextTimerId,
   { w with timers := w.timers ++ [{ handle := w.nextTimerId, sid := sid, ctx := ctx }],
            nextTimerId := w.nextTimerId + 1 })

/-- External nondeterminism consumed by one handler run: whether the initial
`sendMessage` succeeds, the message id it returns, the two `Math.random`
draws (caller selection and the coin), and whether the finalize `UPDATE`
commits. -/
structure ExtInput where
  sendOk : Bool := true
  msgId : Int := 1
  p1IsCaller : Bool := true
  coinIsHeads : Bool := true
  persistOk : Bool := true
deriving DecidableEq, Repr

/-- `Math.random() < 0.5 ? COINFLIP_CHOICE_HEADS : COINFLIP_CHOICE_TAILS`. -/
def flipOutcome (coinIsHeads : Bool) : String := if coinIsHeads then "heads" else "tails"

/-- `finalizeAndRecordOutcome(sessionId, finalStatus, finalGameState)`
(both drafts, identical): run the terminal `UPDATE`, then
`activeHelperGames.delete(sessionId)`.  When the `UPDATE` throws, the catch
block only logs, so the delete is skipped and the world is unchanged. -/
def finalizeAndRecordOutcome (sessionId : Int) (finalStatus : Status)
    (finalGameState : GameState) (persistOk : Bool) (w : World) : World :=
  if persistOk then
    { w with
      store := w.store.map (fun r =>
        if r.session_id = sessionId then
          { r with status := finalStatus, game_state_json := finalGameState }
        else r),
      persistLog := w.persistLog ++ [(sessionId, finalStatus, finalGameState)],
      registry := mapDelete sessionId w.registry }
  else w

/-- `runCoinflipPvB(session)` (part_000 lines 130-148): mark the game state,
re-register the session, render the Heads/Tails keyboard, and arm the
`player_turn` timer. -/
def runCoinflipPvB (session : Session) (w : World) : World :=
  let session :=
    { session with game_state_json :=
        { session.game_state_json with statusStr := some "pvb_awaiting_player_choice" } }
  let w := { w with registry := mapSet session.session_id session w.registry }
  -- bot.editMessageText: Presenter-only, no core state effect
  let armed := armTimer session.session_id TimeoutCtx.player_turn w
  let session := { session with timeoutId := some armed.1 }
  -- the Map holds the session by reference, so the timeoutId write is visible
  { armed.2 with registry := mapSet session.session_id session armed.2.registry }

/-- `runCoinflipPvP(session)` (part_000 lines 150-171): pick the caller with
`Math.random`, record `callerId`, render the call keyboard, and arm the
`caller_turn` timer. -/
def runCoinflipPvP (session : Session) (ext : ExtInput) (w : World) : World :=
  let caller : Option String :=
    if ext.p1IsCaller then some session.initiator_id else session.opponent_id
  let session :=
    { session with game_state_json := { session.game_state_json with callerId := caller } }
  let w := { w with registry := mapSet session.session_id session w.registry }
  -- bot.editMessageText: Presenter-only
  let armed := armTimer session.session_id TimeoutCtx.caller_turn w
  let session := { session with timeoutId := some armed.1 }
  { armed.2 with registry := mapSet session.session_id session armed.2.registry }

/-- `runCoinflipAnimationAndFinalize(session, playerChoice, isPvP)`
(part_000 lines 173-213; `runCoinflipAnimation` in the other draft is
identical in all state effects): cancel the pending timer, play the
animation (Presenter-only edits), flip the coin, compute winner and final
status exactly as the source does, and finalize. -/
def runCoinflipAnimationAndFinalize (session : Session) (playerChoice : String)
    (isPvP : Bool) (ext : ExtInput) (w : World) : World :=
  let w := clearSessionTimeout session w
  let gameState := session.game_state_json
  -- animation loop: bot.editMessageText frames + sleep, Presenter-only
  let actualFlipOutcome := flipOutcome ext.coinIsHeads
  if isPvP then
    let winnerId : Option String :=
      if playerChoice = actualFlipOutcome then gameState.callerId
      else if jsStrOpt gameState.callerId = session.initiator_id then session.opponent_id
      else some session.initiator_id
    let finalStatus :=
      if jsStrOpt winnerId = session.initiator_id then Status.completed_p1_win
      else Status.completed_p2_win
    let gs := { gameState with winner := winnerId }
    finalizeAndRecordOutcome session.session_id finalStatus gs ext.persistOk w
  else
    let winnerId : Option String :=
      if playerChoice = actualFlipOutcome then some session.initiator_id else some "bot"
    let finalStatus :=
      if playerChoice = actualFlipOutcome then Status.completed_p1_win
      else Status.completed_bot_win
    let gs := { gameState with winner := winnerId }
    finalizeAndRecordOutcome session.session_id finalStatus gs ext.persistOk w

/-- `handleGameTimeout(sessionId, context)` (part_000 lines 216-240): bail
out if the session is no longer registered, cancel the (fired) timer handle,
compute the by-default outcome per context, and finalize. -/
def handleGameTimeout (sessionId : Int) (context : TimeoutCtx) (persistOk : Bool)
    (w : World) : World :=
  match w.registry sessionId with
  | none => w
  | some session =>
    let w := clearSessionTimeout session w
    let finalStatus :=
      match context with
      | TimeoutCtx.offer => Status.completed_timeout
      | TimeoutCtx.player_turn => Status.completed_bot_win
      | TimeoutCtx.caller_turn =>
        if jsStrOpt session.game_state_json.callerId = session.initiator_id then
          Status.completed_p2_win
        else Status.completed_p1_win
    -- bot.editMessageText: Presenter-only
    finalizeAndRecordOutcome sessionId finalStatus session.game_state_json persistOk w

/-- The body of the `bot.on('callback_query', ...)` handler (part_000 lines
281-370), after `data.split(':')` and `parseInt` have produced `action`,
`sessionId` and `params` (see `onCallbackQuery`).  Mirrors the source switch
case by case; the only state-relevant calls are the registry lookup, the
`clearTimeout` at entry, the `answerCallbackQuery` replies, the session-field
writes, and the dispatched game-flow functions. -/
def handleCallback (w : World) (action : String) (sessionId : Option Int)
    (params : List String) (clickerId fromRef : String) (ext : ExtInput) : World :=
  match lookupNum sessionId w.registry with
  | none => { w with answers := w.answers ++ [answerNoLongerActive] }
  | some session =>
    let w := clearSessionTimeout session w
    let gameState := session.game_state_json
    if action = "cf_helper_cancel" then
      if clickerId = session.initiator_id then
        let w := { w with answers := w.answers ++ [answerToast "Offer withdrawn."] }
        -- bot.editMessageText withdrawal notice: Presenter-only
        finalizeAndRecordOutcome session.session_id Status.completed_cancelled gameState
          ext.persistOk w
      else { w with answers := w.answers ++ [answerAlert "Only the initiator can cancel."] }
    else if action = "cf_helper_accept_bot" then
      if clickerId = session.initiator_id then
        let w := { w with answers := w.answers ++ [answerPlain] }
        runCoinflipPvB session w
      else
        { w with answers := w.answers ++ [answerAlert "Only the initiator can play vs the Bot."] }
    else if action = "cf_helper_accept_pvp" then
      if clickerId ≠ session.initiator_id then
        let session :=
          { session with
            opponent_id := some clickerId,
            game_state_json := { gameState with opponentName := some fromRef } }
        let w := { w with registry := mapSet session.session_id session w.registry }
        let w := { w with answers := w.answers ++ [answerPlain] }
        runCoinflipPvP session ext w
      else
        { w with answers := w.answers ++ [answerAlert "You can't accept your own challenge."] }
    else if action = "cf_helper_accept_direct" then
      if clickerId = jsStrOpt session.opponent_id then
        let w := { w with answers := w.answers ++ [answerPlain] }
        runCoinflipPvP session ext w
      else { w with answers := w.answers ++ [answerAlert "This challenge is not for you."] }
    else if action = "cf_helper_decline_direct" then
      if clickerId = jsStrOpt session.opponent_id then
        let w := { w with answers := w.answers ++ [answerPlain] }
        -- bot.editMessageText decline notice: Presenter-only
        finalizeAndRecordOutcome session.session_id Status.completed_cancelled gameState
          ext.persistOk w
      else { w with answers := w.answers ++ [answerAlert "This challenge is not for you."] }
    else if action = "cf_helper_pvb_choice" then
      if clickerId = session.initiator_id then
        let w := { w with answers := w.answers ++ [answerPlain] }
        let choice := jsStrOpt (params.get? 0)
        runCoinflipAnimationAndFinalize session choice false ext w
      else w
      -- NOTE: the source's pvb_choice case has no else branch: an
      -- unauthorized clicker gets no answerCallbackQuery at all.
    else if action = "cf_helper_pvp_choice" then
      let callerIdParam := jsStrOpt (params.get? 0)
      let choice := jsStrOpt (params.get? 1)
      if clickerId = callerIdParam then
        let w := { w with answers := w.answers ++ [answerPlain] }
        let session :=
          { session with game_state_json := { gameState with callerName := some fromRef } }
        let w := { w with registry := mapSet session.session_id session w.registry }
        runCoinflipAnimationAndFinalize session choice true ext w
      else { w with answers := w.answers ++ [answerAlert "It's not your turn to call."] }
    else w
    -- the source switch has no default case: an unknown action falls through

/-- An inbound `callback_query` update: the raw `data` string, the clicker's
id (`String(callbackQuery.from.id)`) and the display reference
`getPlayerDisplayReference(callbackQuery.from)` computes for them. -/
structure CallbackQuery where
  data : String
  fromId : String
  fromRef : String := ""
deriving DecidableEq, Repr

/-- The `bot.on('callback_query', ...)` entry (part_000 lines 281-291):
`const [action, sessionIdStr, ...params] = data.split(':')`,
`parseInt(sessionIdStr, 10)`, then the switch. -/
def onCallbackQuery (cb : CallbackQuery) (ext : ExtInput) (w : World) : World :=
  let parts := splitColon cb.data
  let action := jsStrOpt (parts.get? 0)
  let sessionId := parseIntJS (jsStrOpt (parts.get? 1))
  let params := parts.drop 2
  handleCallback w action sessionId params cb.fromId cb.fromRef ext

/-- `BOT_ID` from the bot token (configuration constant). -/
def BOT_ID : String := "coinflip_helper_bot"

/-- Materialize the in-memory session object from the claimed row
(`sessionRes.rows[0]`). -/
def sessionOfRow (row : Row) : Session :=
  { session_id := row.session_id, chat_id := row.chat_id,
    initiator_id := row.initiator_id, opponent_id := row.opponent_id,
    bet_amount_lamports := row.bet_amount_lamports, status := row.status,
    game_state_json := row.game_state_json, timeoutId := none }

/-- The `SET status = 'in_progress', helper_bot_id = $1` part of the claim
`UPDATE`. -/
def claimRow (row : Row) : Row :=
  { row with status := Status.in_progress, helper_bot_id := some BOT_ID }

/-- Write back an updated row by primary key. -/
def replaceRow (row : Row) (store : List Row) : List Row :=
  store.map (fun r => if r.session_id = row.session_id then row else r)

/-- The non-terminal `UPDATE coinflip_sessions SET game_state_json = $1` the
offer functions run after sending the offer message. -/
def updateRowGameState (sid : Int) (gs : GameState) (store : List Row) : List Row :=
  store.map (fun r => if r.session_id = sid then { r with game_state_json := gs } else r)

/-- The conditional-claim `WHERE main_bot_game_id = $2 AND status =
'pending_pickup'` filter of the pickup `UPDATE`. -/
def findPendingRow (mainBotGameId : Int) (store : List Row) : Option Row :=
  store.find? (fun r =>
    decide (r.main_bot_game_id = mainBotGameId) && decide (r.status = Status.pending_pickup))

/-- `runUnifiedOffer(session)` (part_000 lines 80-103): send the offer
message; on success record the message id, arm the offer timer, register the
session and persist the game state; on failure finalize with
`completed_error_ui`. -/
def runUnifiedOffer (session : Session) (ext : ExtInput) (w : World) : World :=
  if ext.sendOk then
    let session :=
      { session with game_state_json :=
          { session.game_state_json with helperMessageId := some ext.msgId } }
    let armed := armTimer session.session_id TimeoutCtx.offer w
    let session := { session with timeoutId := some armed.1 }
    let w := { armed.2 with registry := mapSet session.session_id session armed.2.registry }
    { w with store := updateRowGameState session.session_id session.game_state_json w.store }
  else
    finalizeAndRecordOutcome session.session_id Status.completed_error_ui
      { errorMsg := some "Failed to send offer message" } ext.persistOk w

/-- `runDirectChallenge(session)` (part_000 lines 105-128): same state
effects as `runUnifiedOffer` with the direct-challenge keyboard and timeout. -/
def runDirectChallenge (session : Session) (ext : ExtInput) (w : World) : World :=
  if ext.sendOk then
    let session :=
      { session with game_state_json :=
          { session.game_state_json with helperMessageId := some ext.msgId } }
    let armed := armTimer session.session_id TimeoutCtx.offer w
    let session := { session with timeoutId := some armed.1 }
    let w := { armed.2 with registry := mapSet session.session_id session armed.2.registry }
    { w with store := updateRowGameState session.session_id session.game_state_json w.store }
  else
    finalizeAndRecordOutcome session.session_id Status.completed_error_ui
      { errorMsg := some "Failed to send direct challenge message" } ext.persistOk w

/-- `handleNewGameSession(mainBotGameId)` (part_000 lines 243-278), the
exception-free path: conditionally claim the `pending_pickup` row (zero rows
matched means `ROLLBACK` and return, i.e. a no-op), register the session,
and dispatch to the direct challenge or the unified offer. -/
def handleNewGameSession (mainBotGameId : Int) (ext : ExtInput) (w : World) : World :=
  match findPendingRow mainBotGameId w.store with
  | none => w
  | some row =>
    let row := claimRow row
    let w := { w with store := replaceRow row w.store }
    let session := sessionOfRow row
    let w := { w with registry := mapSet session.session_id session w.registry }
    if session.opponent_id.isSome then runDirectChallenge session ext w
    else runUnifiedOffer session ext w

/-- The catch block of `handleNewGameSession` (part_000 lines 269-278).  The
source looks the session up with `activeHelperGames.get(mainBotGameId)`
even though the registry is keyed by `session_id`; only on a hit does it
finalize with `completed_error`, otherwise the failure is only logged. -/
def handleNewGameSessionCatch (mainBotGameId : Int) (ext : ExtInput) (w : World) : World :=
  match w.registry mainBotGameId with
  | some sessionFromMap =>
    finalizeAndRecordOutcome sessionFromMap.session_id Status.completed_error
      { errorMsg := some "setup error" } ext.persistOk w
  | none => w

/-- `handleNewGameSession` in the run where setup throws right after the
session has been registered (e.g. the `game_state_json` `UPDATE` inside the
offer function rejects): the claim and the registry insert have happened,
then control transfers to the catch block. -/
def handleNewGameSessionThrowAfterInsert (mainBotGameId : Int) (ext : ExtInput)
    (w : World) : World :=
  match findPendingRow mainBotGameId w.store with
  | none => w
  | some row =>
    let row := claimRow row
    let w := { w with store := replaceRow row w.store }
    let session := sessionOfRow row
    let w := { w with registry := mapSet session.session_id session w.registry }
    handleNewGameSessionCatch mainBotGameId ext w

/-- One in-flight `cf_helper_pvb_choice` handler invocation, split at its
`await` suspension points.  `pc = 0` is the handler entry up to the
`answerCallbackQuery` await; `pc = 1` is the `clearTimeout` at the top of
`runCoinflipAnimationAndFinalize` plus the first animation frame;
`pc = 2..8` are the remaining frame edit/sleep iterations; `pc = 9` is the
resolution, final edit and finalize.  `captured` is the session object the
entry segment obtained from the registry — in JS the continuation keeps
using this reference even if the Map entry is deleted meanwhile. -/
structure ChoiceTask where
  sid : Int
  clicker : String
  choice : String
  ext : ExtInput := {}
  pc : Nat := 0
  captured : Option Session := none
deriving DecidableEq, Repr

/-- Run one segment of a `cf_helper_pvb_choice` handler: returns the new
world and the task's continuation (or `none` when the handler returned). -/
def stepChoiceTask (w : World) (t : ChoiceTask) : World × Option ChoiceTask :=
  if t.pc = 0 then
    match w.registry t.sid with
    | none => ({ w with answers := w.answers ++ [answerNoLongerActive] }, none)
    | some session =>
      let w := clearSessionTimeout session w
      if t.clicker = session.initiator_id then
        ({ w with answers := w.answers ++ [answerPlain] },
         some { t with pc := 1, captured := some session })
      else (w, none)
  else
    match t.captured with
    | none => (w, none)
    | some session =>
      if t.pc = 1 then
        (clearSessionTimeout session w, some { t with pc := 2 })
      else if t.pc ≤ 8 then
        (w, some { t with pc := t.pc + 1 })
      else
        let actualFlipOutcome := flipOutcome t.ext.coinIsHeads
        let winnerId : Option String :=
          if t.choice = actualFlipOutcome then some session.initiator_id else some "bot"
        let finalStatus :=
          if t.choice = actualFlipOutcome then Status.completed_p1_win
          else Status.completed_bot_win
        let gs := { session.game_state_json with winner := winnerId }
        (finalizeAndRecordOutcome t.sid finalStatus gs t.ext.persistOk w, none)

/-- Cooperative event-loop scheduler for two handler invocations on the same
session: each schedule entry says which task runs its next segment
(`false` = first, `true` = second); a finished task's entries are skipped. -/
def runSchedPair (w : World) (ta tb : Option ChoiceTask) : List Bool → World
  | [] => w
  | b :: rest =>
    if b then
      match tb with
      | none => runSchedPair w ta none rest
      | some t =>
        let p := stepChoiceTask w t
        runSchedPair p.1 ta p.2 rest
    else
      match ta with
      | none => runSchedPair w none tb rest
      | some t =>
        let p := stepChoiceTask w t
        runSchedPair p.1 p.2 tb rest

/-- Interleaved schedule: both handlers pass the entry gate before either
finalizes (second click arrives during the first click's animation). -/
def raceSchedule : List Bool :=
  [false, true,
   false, false, false, false, false, false, false, false, false,
   true, true, true, true, true, true, true, true, true]

/-- Serialized schedule: the first handler runs to completion before the
second begins. -/
def serialSchedule : List Bool :=
  [false, false, false, false, false, false, false, false, false, false,
   true, true, true, true, true, true, true, true, true, true]

/-! ### Concrete scenarios used by counterexamples and witnesses -/

/-- A live PvB session: initiator `"A"`, player-turn timer (handle 0) armed. -/
def sessionA : Session := { session_id := 1, initiator_id := "A", timeoutId := some 0 }

/-- World with `sessionA` registered, its durable row `in_progress`, and its
turn timer pending. -/
def worldA : World :=
  { registry := mapSet 1 sessionA emptyRegistry,
    store := [{ session_id := 1, main_bot_game_id := 42, initiator_id := "A",
                status := Status.in_progress }],
    timers := [{ handle := 0, sid := 1, ctx := TimeoutCtx.player_turn }],
    nextTimerId := 1 }

/-- The initiator's `heads` choice click on `sessionA`. -/
def taskA : ChoiceTask := { sid := 1, clicker := "A", choice := "heads" }

/-- A live PvP session whose opponent is already set to `"B"` (a direct
challenge, or a unified offer already accepted by `"B"`). -/
def sessionAB : Session :=
  { session_id := 2, initiator_id := "A", opponent_id := some "B",
    game_state_json := { callerId := some "B" }, timeoutId := some 0 }

/-- World with `sessionAB` registered and its timer pending. -/
def worldAB : World :=
  { registry := mapSet 2 sessionAB emptyRegistry,
    store := [{ session_id := 2, main_bot_game_id := 43, initiator_id := "A",
                opponent_id := some "B", status := Status.in_progress }],
    timers := [{ handle := 0, sid := 2, ctx := TimeoutCtx.caller_turn }],
    nextTimerId := 1 }

/-- World whose store still holds a `pending_pickup` row for external game 42
(session id 1), and an empty registry. -/
def pendingWorld : World :=
  { registry := emptyRegistry,
    store := [{ session_id := 1, main_bot_game_id := 42, initiator_id := "A",
                status := Status.pending_pickup }] }

/-! ### Helper lemmas -/

theorem mapSet_self (k : Int) (v : Session) (m : Int → Option Session) :
    mapSet k v m k = some v := by
  simp [mapSet]

theorem mapDelete_self (k : Int) (m : Int → Option Session) :
    mapDelete k m k = none := by
  simp [mapDelete]

/-! ### Claim C5 -/

/-- Claim C5, counterexample: in `finalizeAndRecordOutcome` the
`activeHelperGames.delete` sits after the `UPDATE` inside the `try`, so when
the persist fails the catch block only logs and the session is NOT removed
from the registry — contradicting the claim that it is nevertheless removed. -/
theorem c5_counterexample :
    (finalizeAndRecordOutcome 1 Status.completed_bot_win {} false worldA).registry 1 =
      some sessionA ∧
    (finalizeAndRecordOutcome 1 Status.completed_bot_win {} false worldA).persistLog =
      worldA.persistLog := by
  exact ⟨rfl, rfl⟩

/-- Claim C5, amended: a finalize whose durable persist fails leaves the
whole world (in particular the Session Registry entry) unchanged; the
session is evicted exactly when the persist succeeds. -/
theorem c5_finalize_eviction (sessionId : Int) (st : Status) (gs : GameState) (w : World) :
    finalizeAndRecordOutcome sessionId st gs false w = w ∧
    (finalizeAndRecordOutcome sessionId st gs true w).registry sessionId = none := by
  constructor
  · rfl
  · simp [finalizeAndRecordOutcome, mapDelete]

/-! ### Claim C6 -/

/-- Claim C6: a pickup notification whose external game id matches no
`pending_pickup` row (in particular a re-delivery after a successful claim,
when the row is already `in_progress`) is a complete no-op: the zero-row
conditional `UPDATE` is rolled back and the handler returns, so the store,
the registry and everything else are unchanged. -/
theorem c6_pickup_idempotent (gid : Int) (ext : ExtInput) (w : World)
    (h : ∀ r ∈ w.store, ¬(r.main_bot_game_id = gid ∧ r.status = Status.pending_pickup)) :
    handleNewGameSession gid ext w = w := by
  have hfind : findPendingRow gid w.store = none := by
    rw [findPendingRow, List.find?_eq_none]
    intro r hr
    simpa using h r hr
  simp [handleNewGameSession, hfind]

/-- Witness for C6: re-delivering pickup 42 after the row became
`in_progress` changes nothing. -/
theorem c6_witness : handleNewGameSession 42 {} worldA = worldA :=
  c6_pickup_idempotent 42 {} worldA (by decide)

/-! ### Claim C7 -/

/-- Claim C7: once a session id is absent from the registry, any callback
action for that id only answers "no longer active" (no registry, store,
timer or durable change), and a timer callback for that id is a strict
no-op. -/
theorem c7_removed_session_inert (w : World) (i : Int) (h : w.registry i = none) :
    (∀ action params clicker fromRef ext,
      handleCallback w action (some i) params clicker fromRef ext =
        { w with answers := w.answers ++ [answerNoLongerActive] }) ∧
    (∀ ctx persistOk, handleGameTimeout i ctx persistOk w = w) := by
  constructor
  · intro action params clicker fromRef ext
    simp [handleCallback, lookupNum, h]
  · intro ctx persistOk
    simp [handleGameTimeout, h]

/-- An empty-registry world. -/
def worldEmpty : World := { registry := emptyRegistry }

/-- Witness for C7 at the empty registry and session id 1. -/
theorem c7_witness :
    handleCallback worldEmpty "cf_helper_cancel" (some 1) [] "A" "A" {} =
      { worldEmpty with answers := [answerNoLongerActive] } ∧
    handleGameTimeout 1 TimeoutCtx.player_turn true worldEmpty = worldEmpty := by
  have h := c7_removed_session_inert worldEmpty 1 rfl
  exact ⟨h.1 "cf_helper_cancel" [] "A" "A" {}, h.2 TimeoutCtx.player_turn true⟩

/-! ### Claim C8 -/

/-- Claim C8 is the spec's intent but the code has a slip: the catch block
of `handleNewGameSession` does `activeHelperGames.get(mainBotGameId)`, yet
the registry is keyed by `session_id`.  For pickup 42 whose claimed row has
session id 1, an exception after the session is registered finds nothing:
no `completed_error` (or any other status) is persisted, the lookup at the
external id misses, and the registered session object is left stuck. -/
theorem c8_pickup_catch_drops_failure :
    (handleNewGameSessionThrowAfterInsert 42 {} pendingWorld).persistLog = [] ∧
    ((handleNewGameSessionThrowAfterInsert 42 {} pendingWorld).registry 42) = none ∧
    ((handleNewGameSessionThrowAfterInsert 42 {} pendingWorld).registry 1).isSome = true ∧
    ((handleNewGameSessionThrowAfterInsert 42 {} pendingWorld).store.all
      (fun r => decide (r.status ≠ Status.completed_error))) = true := by
  refine ⟨rfl, rfl, rfl, rfl⟩

/-! ### Claim C3 -/

/-- Claim C3: a `player_turn` timeout (the `awaiting_pvb_choice` phase)
persists `completed_bot_win`; a `caller_turn` timeout (the
`awaiting_pvp_call` phase) persists the status crediting the non-caller:
`completed_p2_win` when the caller is the initiator, `completed_p1_win`
otherwise. -/
theorem c3_timeout_defaults (sessionId : Int) (s : Session) (w : World)
    (hreg : w.registry sessionId = some s) :
    (handleGameTimeout sessionId TimeoutCtx.player_turn true w).persistLog =
      w.persistLog ++ [(sessionId, Status.completed_bot_win, s.game_state_json)] ∧
    (handleGameTimeout sessionId TimeoutCtx.caller_turn true w).persistLog =
      w.persistLog ++ [(sessionId,
        if jsStrOpt s.game_state_json.callerId = s.initiator_id then Status.completed_p2_win
        else Status.completed_p1_win,
        s.game_state_json)] ∧
    (jsStrOpt s.game_state_json.callerId = s.initiator_id →
      (handleGameTimeout sessionId TimeoutCtx.caller_turn true w).persistLog =
        w.persistLog ++ [(sessionId, Status.completed_p2_win, s.game_state_json)]) ∧
    (jsStrOpt s.game_state_json.callerId ≠ s.initiator_id →
      (handleGameTimeout sessionId TimeoutCtx.caller_turn true w).persistLog =
        w.persistLog ++ [(sessionId, Status.completed_p1_win, s.game_state_json)]) := by
  refine ⟨?_, ?_, ?_, ?_⟩
  · simp [handleGameTimeout, hreg, clearSessionTimeout, finalizeAndRecordOutcome]
  · simp [handleGameTimeout, hreg, clearSessionTimeout, finalizeAndRecordOutcome]
  · intro hcal
    simp [handleGameTimeout, hreg, clearSessionTimeout, finalizeAndRecordOutcome, hcal]
  · intro hcal
    simp [handleGameTimeout, hreg, clearSessionTimeout, finalizeAndRecordOutcome, hcal]

/-- Witness for C3 on the live PvP session `sessionAB` (caller `"B"`, the
opponent, so its timeout credits the initiator with `completed_p1_win`) and
on the PvB world. -/
theorem c3_witness :
    (handleGameTimeout 1 TimeoutCtx.player_turn true worldA).persistLog =
      [(1, Status.completed_bot_win, sessionA.game_state_json)] ∧
    (handleGameTimeout 2 TimeoutCtx.caller_turn true worldAB).persistLog =
      [(2, Status.completed_p1_win, sessionAB.game_state_json)] := by
  have h1 := c3_timeout_defaults 1 sessionA worldA rfl
  have h2 := c3_timeout_defaults 2 sessionAB worldAB rfl
  exact ⟨(h1.1).trans (by decide), (h2.2.2.2 (by decide)).trans (by decide)⟩

/-! ### Claim C4 -/

/-- Claim C4: in the resolution step the acting player wins iff their choice
equals the landed side, and the persisted winner identity and terminal
status encode exactly that boolean.  PvB: winner is the initiator with
`completed_p1_win` on a match, `"bot"` with `completed_bot_win` otherwise.
PvP (for a caller `c` who is one of the two players): winner is the caller
on a match and the other player otherwise, with `completed_p1_win` exactly
when the winner is the initiator. -/
theorem c4_resolution (s : Session) (w : World) (ext : ExtInput) (choice c opp d : String)
    (hp : ext.persistOk = true)
    (hcaller : s.game_state_json.callerId = some c)
    (hopp : s.opponent_id = some opp)
    (hdisj : c = s.initiator_id ∨ c = opp)
    (hne : s.initiator_id ≠ opp)
    (hd : d = if choice = flipOutcome ext.coinIsHeads then c
          else if c = s.initiator_id then opp else s.initiator_id) :
    (runCoinflipAnimationAndFinalize s choice false ext w).persistLog =
      w.persistLog ++ [(s.session_id,
        if choice = flipOutcome ext.coinIsHeads then Status.completed_p1_win
        else Status.completed_bot_win,
        { s.game_state_json with winner :=
            (if choice = flipOutcome ext.coinIsHeads then some s.initiator_id
             else some "bot") })] ∧
    ((if choice = flipOutcome ext.coinIsHeads then Status.completed_p1_win
      else Status.completed_bot_win) = Status.completed_p1_win ↔
      choice = flipOutcome ext.coinIsHeads) ∧
    (runCoinflipAnimationAndFinalize s choice true ext w).persistLog =
      w.persistLog ++ [(s.session_id,
        if d = s.initiator_id then Status.completed_p1_win else Status.completed_p2_win,
        { s.game_state_json with winner := some d })] ∧
    (d = c ↔ choice = flipOutcome ext.coinIsHeads) := by
  by_cases hch : choice = flipOutcome ext.coinIsHeads
  · refine ⟨?_, ?_, ?_, ?_⟩
    · simp [runCoinflipAnimationAndFinalize, finalizeAndRecordOutcome,
        clearSessionTimeout, hch, hp]
    · simp [hch]
    · simp [runCoinflipAnimationAndFinalize, finalizeAndRecordOutcome,
        clearSessionTimeout, hch, hp, hcaller, jsStrOpt, hd]
    · simp [hch, hd]
  · have hdval : d = if c = s.initiator_id then opp else s.initiator_id := by
      rw [hd, if_neg hch]
    refine ⟨?_, ?_, ?_, ?_⟩
    · simp [runCoinflipAnimationAndFinalize, finalizeAndRecordOutcome,
        clearSessionTimeout, hch, hp]
    · simp [hch]
    · by_cases hco : c = s.initiator_id
      · simp [runCoinflipAnimationAndFinalize, finalizeAndRecordOutcome,
          clearSessionTimeout, hch, hp, hcaller, hopp, jsStrOpt, hco, hdval]
      · simp [runCoinflipAnimationAndFinalize, finalizeAndRecordOutcome,
          clearSessionTimeout, hch, hp, hcaller, hopp, jsStrOpt, hco, hdval]
    · rw [hdval]
      rcases hdisj with hc | hc
      · rw [if_pos hc, hc]
        simp [hch, Ne.symm hne]
      · by_cases hco : c = s.initiator_id
        · rw [if_pos hco, hco]
          simp [hch, Ne.symm hne]
        · rw [if_neg hco]
          simp only [hch, iff_false]
          exact fun h => hco h.symm

/-- Witness for C4 on `sessionAB` (caller `"B"`, choice `"tails"`, coin
lands `"heads"`): the caller loses, PvP winner is the initiator. -/
theorem c4_witness :
    (runCoinflipAnimationAndFinalize sessionAB "tails" true {} worldAB).persistLog =
      [(2, Status.completed_p1_win,
        { sessionAB.game_state_json with winner := some "A" })] ∧
    (runCoinflipAnimationAndFinalize sessionAB "tails" false {} worldAB).persistLog =
      [(2, Status.completed_bot_win,
        { sessionAB.game_state_json with winner := some "bot" })] := by
  have h := c4_resolution sessionAB worldAB {} "tails" "B" "B" "A" rfl rfl rfl
    (Or.inr rfl) (by decide) (by decide)
  exact ⟨(h.2.2.1).trans (by decide), (h.1).trans (by decide)⟩

/-! ### Claim C2 -/

/-- Claim C2, counterexample: an unauthorized `cf_helper_pvb_choice` click
(clicker `"B"`, initiator `"A"`) gets NO denial (the source's case has no
else branch), and the wait timer — cancelled unconditionally at handler
entry — is never re-armed: the pending-timer set goes from one timer to
none and `nextTimerId` shows nothing new was armed.  This contradicts both
the "user-visible denial" and the "re-armed before the handler returns"
parts of the claim. -/
theorem c2_counterexample :
    worldA.timers = [{ handle := 0, sid := 1, ctx := TimeoutCtx.player_turn }] ∧
    (onCallbackQuery { data := "cf_helper_pvb_choice:1:heads", fromId := "B" } {}
      worldA).answers = [] ∧
    (onCallbackQuery { data := "cf_helper_pvb_choice:1:heads", fromId := "B" } {}
      worldA).timers = [] ∧
    (onCallbackQuery { data := "cf_helper_pvb_choice:1:heads", fromId := "B" } {}
      worldA).nextTimerId = worldA.nextTimerId ∧
    (onCallbackQuery { data := "cf_helper_pvb_choice:1:heads", fromId := "B" } {}
      worldA).registry 1 = some sessionA := by
  refine ⟨rfl, rfl, rfl, rfl, rfl⟩

/-- Claim C2, amended: an action from an identity other than the designated
one changes no session fields, phase or status and performs no durable
write, and for every action except the PvB choice it is answered with a
user-visible denial (the PvB choice is silently ignored); but in all cases
the wait timer has been cancelled at handler entry and is never re-armed
(the result world differs from the original only in the removed timer and
the denial reply). -/
theorem c2_unauthorized (w : World) (i : Int) (s : Session)
    (params : List String) (clicker fromRef : String) (ext : ExtInput)
    (hreg : w.registry i = some s) :
    (clicker ≠ s.initiator_id →
      handleCallback w "cf_helper_cancel" (some i) params clicker fromRef ext =
        { w with
          timers := removeTimer s.timeoutId w.timers,
          answers := w.answers ++ [answerAlert "Only the initiator can cancel."] }) ∧
    (clicker ≠ s.initiator_id →
      handleCallback w "cf_helper_accept_bot" (some i) params clicker fromRef ext =
        { w with
          timers := removeTimer s.timeoutId w.timers,
          answers := w.answers ++ [answerAlert "Only the initiator can play vs the Bot."] }) ∧
    (clicker = s.initiator_id →
      handleCallback w "cf_helper_accept_pvp" (some i) params clicker fromRef ext =
        { w with
          timers := removeTimer s.timeoutId w.timers,
          answers := w.answers ++ [answerAlert "You can't accept your own challenge."] }) ∧
    (clicker ≠ jsStrOpt s.opponent_id →
      handleCallback w "cf_helper_accept_direct" (some i) params clicker fromRef ext =
        { w with
          timers := removeTimer s.timeoutId w.timers,
          answers := w.answers ++ [answerAlert "This challenge is not for you."] }) ∧
    (clicker ≠ jsStrOpt s.opponent_id →
      handleCallback w "cf_helper_decline_direct" (some i) params clicker fromRef ext =
        { w with
          timers := removeTimer s.timeoutId w.timers,
          answers := w.answers ++ [answerAlert "This challenge is not for you."] }) ∧
    (clicker ≠ s.initiator_id →
      handleCallback w "cf_helper_pvb_choice" (some i) params clicker fromRef ext =
        { w with timers := removeTimer s.timeoutId w.timers }) ∧
    (clicker ≠ jsStrOpt params[0]? →
      handleCallback w "cf_helper_pvp_choice" (some i) params clicker fromRef ext =
        { w with
          timers := removeTimer s.timeoutId w.timers,
          answers := w.answers ++ [answerAlert "It's not your turn to call."] }) := by
  refine ⟨?_, ?_, ?_, ?_, ?_, ?_, ?_⟩ <;> intro hcond <;>
    simp [handleCallback, lookupNum, hreg, clearSessionTimeout, hcond]

/-- Witness for C2's amended theorem: concrete unauthorized actions on
`sessionA` (initiator `"A"`, clicker `"B"`). -/
theorem c2_witness :
    handleCallback worldA "cf_helper_cancel" (some 1) [] "B" "B" {} =
      { worldA with
        timers := [],
        answers := [answerAlert "Only the initiator can cancel."] } ∧
    handleCallback worldA "cf_helper_pvb_choice" (some 1) ["heads"] "B" "B" {} =
      { worldA with timers := [] } := by
  have h := c2_unauthorized worldA 1 sessionA [] "B" "B" {} rfl
  have h2 := c2_unauthorized worldA 1 sessionA ["heads"] "B" "B" {} rfl
  constructor
  · have := h.1 (by decide)
    simpa using this
  · have := (h2.2.2.2.2.2.1) (by decide)
    simpa using this

/-! ### Claim C9 -/

/-- Claim C9, counterexample: `sessionAB` already has `opponent_id = "B"`
(a PvP session in `awaiting_pvp_call`), yet a `cf_helper_accept_pvp` action
from `"C"` is processed without any phase guard and overwrites the opponent
to `"C"` — `opponent_id` is assigned a second time and changed. -/
theorem c9_counterexample :
    sessionAB.opponent_id = some "B" ∧
    Option.map Session.opponent_id
      ((onCallbackQuery { data := "cf_helper_accept_pvp:2", fromId := "C", fromRef := "C" }
        {} worldAB).registry 2) = some (some "C") := by
  refine ⟨rfl, rfl⟩

/-- Claim C9, amended: the `cf_helper_accept_pvp` handler assigns
`opponent_id := clicker` unconditionally for every processed accept from a
non-initiator, with no phase guard and no check that an opponent is already
set; so `opponent_id` is set at most once only in executions where at most
one such accept is processed. -/
theorem c9_accept_pvp_overwrites (w : World) (i : Int) (s : Session)
    (params : List String) (clicker fromRef : String) (ext : ExtInput)
    (hreg : w.registry i = some s) (hne : clicker ≠ s.initiator_id) :
    Option.map Session.opponent_id
      ((handleCallback w "cf_helper_accept_pvp" (some i) params clicker fromRef ext).registry
        s.session_id) = some (some clicker) := by
  simp [handleCallback, lookupNum, hreg, hne, clearSessionTimeout, runCoinflipPvP,
    armTimer, mapSet]

/-- Witness for C9's amended theorem: `"C"` accepts on `sessionAB`. -/
theorem c9_witness :
    Option.map Session.opponent_id
      ((handleCallback worldAB "cf_helper_accept_pvp" (some 2) [] "C" "C" {}).registry 2) =
      some (some "C") := by
  have h := c9_accept_pvp_overwrites worldAB 2 sessionAB [] "C" "C" {} rfl (by decide)
  simpa using h

/-! ### Claim C10 -/

/-- Claim C10, counterexample: a callback whose action name is unknown
(`cf_helper_unknown`) for a live session performs no durable write — but it
does mutate state: the entry `clearTimeout` cancels the session's pending
wait timer and nothing re-arms it, so the pending-timer set changes.  This
contradicts the claim that the handler mutates no session state on such
events. -/
theorem c10_counterexample :
    worldA.timers = [{ handle := 0, sid := 1, ctx := TimeoutCtx.player_turn }] ∧
    (onCallbackQuery { data := "cf_helper_unknown:1", fromId := "A" } {} worldA).timers =
      [] ∧
    (onCallbackQuery { data := "cf_helper_unknown:1", fromId := "A" } {} worldA).persistLog =
      worldA.persistLog ∧
    (onCallbackQuery { data := "cf_helper_unknown:1", fromId := "A" } {} worldA).store =
      worldA.store ∧
    (onCallbackQuery { data := "cf_helper_unknown:1", fromId := "A" } {} worldA).registry 1 =
      some sessionA := by
  refine ⟨rfl, rfl, rfl, rfl, rfl⟩

/-- Claim C10, amended: when the parsed session key matches no live session
(including `NaN` from malformed data) the handler only answers "no longer
active" and changes nothing else; when the key is live but the action name
is unknown, the handler performs no durable write and changes no session
fields, but it does cancel the session's pending wait timer without
re-arming it. -/
theorem c10_guarded (w : World) (ext : ExtInput) :
    (∀ action k params clicker fromRef, lookupNum k w.registry = none →
      handleCallback w action k params clicker fromRef ext =
        { w with answers := w.answers ++ [answerNoLongerActive] }) ∧
    (∀ action i s params clicker fromRef, w.registry i = some s →
      action ≠ "cf_helper_cancel" → action ≠ "cf_helper_accept_bot" →
      action ≠ "cf_helper_accept_pvp" → action ≠ "cf_helper_accept_direct" →
      action ≠ "cf_helper_decline_direct" → action ≠ "cf_helper_pvb_choice" →
      action ≠ "cf_helper_pvp_choice" →
      handleCallback w action (some i) params clicker fromRef ext =
        { w with timers := removeTimer s.timeoutId w.timers }) := by
  constructor
  · intro action k params clicker fromRef h
    simp [handleCallback, h]
  · intro action i s params clicker fromRef hreg h1 h2 h3 h4 h5 h6 h7
    simp [handleCallback, lookupNum, hreg, clearSessionTimeout, h1, h2, h3, h4, h5, h6, h7]

/-- Witness for C10's amended theorem: non-numeric data (`NaN` key) and an
unknown action on the live `sessionA`. -/
theorem c10_witness :
    handleCallback worldA "cf_helper_pvb_choice" none [] "A" "A" {} =
      { worldA with answers := [answerNoLongerActive] } ∧
    handleCallback worldA "cf_helper_unknown" (some 1) [] "A" "A" {} =
      { worldA with timers := [] } := by
  have h := c10_guarded worldA {}
  constructor
  · have := h.1 "cf_helper_pvb_choice" none [] "A" "A" rfl
    simpa using this
  · have := h.2 "cf_helper_unknown" 1 sessionA [] "A" "A" rfl (by decide) (by decide)
      (by decide) (by decide) (by decide) (by decide) (by decide)
    simpa using this

/-! ### Claim C1 -/

/-- Claim C1, counterexample: two clicks of the initiator's choice button on
the same live session, the second arriving while the first handler is
suspended in the animation (`raceSchedule`): both handlers pass the
entry-gate registry lookup before either finalizes (the session is deleted
from the registry only at the end), so TWO terminal statuses are persisted
for session 1 — the claim's "committed exactly once, even when two user
actions race" is false on the code. -/
theorem c1_counterexample :
    ((runSchedPair worldA (some taskA) (some taskA) raceSchedule).persistLog.filter
      (fun e => decide (e.1 = 1) && (e.2.1).isTerminal)).length = 2 := by
  rfl

/-- Claim C1, amended: the finalize-once guarantee holds only for
serialized executions — when each handler runs to completion before the
next one for the same session begins, the first authorized choice handler
persists exactly one terminal status and deletes the session, and the
second handler's entry gate then fails, adding nothing. -/
theorem c1_serialized_single_finalize (w : World) (s : Session) (t1 t2 : ChoiceTask)
    (hreg : w.registry t1.sid = some s)
    (hsid : t2.sid = t1.sid)
    (hpc1 : t1.pc = 0) (hpc2 : t2.pc = 0)
    (hc1 : t1.clicker = s.initiator_id)
    (hp : t1.ext.persistOk = true) :
    (runSchedPair w (some t1) (some t2) serialSchedule).persistLog =
      w.persistLog ++ [(t1.sid,
        if t1.choice = flipOutcome t1.ext.coinIsHeads then Status.completed_p1_win
        else Status.completed_bot_win,
        { s.game_state_json with winner :=
            (if t1.choice = flipOutcome t1.ext.coinIsHeads then some s.initiator_id
             else some "bot") })] ∧
    (if t1.choice = flipOutcome t1.ext.coinIsHeads then Status.completed_p1_win
     else Status.completed_bot_win).isTerminal = true := by
  constructor
  · simp [serialSchedule, runSchedPair, stepChoiceTask, hreg, hsid, hpc1, hpc2, hc1, hp,
      clearSessionTimeout, finalizeAndRecordOutcome, mapDelete]
  · by_cases hch : t1.choice = flipOutcome t1.ext.coinIsHeads <;>
      simp [hch, Status.isTerminal]

/-- Witness for C1's amended theorem: the serialized double click on
`worldA` persists exactly the single `completed_p1_win` record. -/
theorem c1_witness :
    (runSchedPair worldA (some taskA) (some taskA) serialSchedule).persistLog =
      [(1, Status.completed_p1_win, { winner := some "A" })] ∧
    Status.completed_p1_win.isTerminal = true := by
  have h := c1_serialized_single_finalize worldA sessionA taskA taskA rfl rfl rfl rfl rfl rfl
  exact ⟨(h.1).trans (by decide), by decide⟩
